import Mathlib

/-!
Verification of the model-loading dispatcher and opaque-handle boundary in
`src/extensions/tokenizers/rust/src/models/mod.rs` (DJL rust engine glue).

The Rust source is shallowly embedded: pure computations become Lean
functions, the process environment and file system become an explicit
`World` value, the JNI boundary calls become functions from a `Registry`
state to a `BoundaryResult` paired with the next state.  External
collaborators that are not part of this repository snapshot (`candle`
VarBuilder, the per-family model constructors, the handle helpers from the
crate root) are modelled as data carried by the `World`, or, where the
specification fixes their contract, by definitions marked
`Modelled from the spec`.
-/

namespace Djl

/-- Numeric dtypes of the candle runtime, as far as the dispatcher
distinguishes them (`dtype == DType::F16` is the only comparison made). -/
inductive DType
  | F16
  | BF16
  | F32
  | F64
  | U8
  | U32
  | I64
  deriving DecidableEq, Repr

/-- Devices of the candle runtime.  The dispatcher pattern-matches only on
whether the device is a Cuda device. -/
inductive Device
  | Cpu
  | Cuda (ordinal : Nat)
  | Metal (ordinal : Nat)
  deriving DecidableEq, Repr

/-- Whether a device is a Cuda device (matches `Device::Cuda(_)`). -/
def Device.isCuda : Device → Bool
  | .Cuda _ => true
  | _ => false

/-- The family-specific configuration fields that `mod.rs` itself touches:
the `architectures` string list read by the task-head dispatch, and the
`use_flash_attn` flag it writes before construction.  The remaining
hyperparameters live in the per-family modules, which only the family
constructors consume. -/
structure FamilyConfig where
  architectures : List String
  use_flash_attn : Option Bool
  deriving DecidableEq, Repr

/-- The tagged union `Config` of `mod.rs` (serde internally tagged by
`model_type`, variant names renamed kebab-case). -/
inductive Config
  | bert (c : FamilyConfig)
  | camembert (c : FamilyConfig)
  | roberta (c : FamilyConfig)
  | xlmRoberta (c : FamilyConfig)
  | distilbert (c : FamilyConfig)
  | mistral (c : FamilyConfig)
  deriving DecidableEq, Repr

/-- The family-specific payload of a parsed config. -/
def Config.familyConfig : Config → FamilyConfig
  | .bert c => c
  | .camembert c => c
  | .roberta c => c
  | .xlmRoberta c => c
  | .distilbert c => c
  | .mistral c => c

/-- Errors of config parsing.  `UnsupportedArchitecture` embeds the serde
failure on an unknown `model_type` tag of the internally tagged enum
(serde reports it as an unknown-variant error, mapped through
`candle::Error::msg` in `load_model`); `Malformed` embeds every other serde
failure (missing tag, missing required family field). -/
inductive ConfigError
  | UnsupportedArchitecture (tag : String)
  | Malformed (field : String)
  deriving DecidableEq, Repr

/-- A configuration document, abstracting the JSON text handed to
`serde_json::from_str::<Config>`: the `model_type` discriminator (absent
models a document without the tag) and the fields of the matched family
that `mod.rs` touches. -/
structure ConfigDoc where
  model_type : Option String
  architectures : List String
  use_flash_attn : Option Bool
  deriving DecidableEq, Repr

/-- The `model_type` tags serde accepts for `Config` (variant names in
kebab-case per the `rename_all` attribute on the enum). -/
def recognizedModelTypes : List String :=
  ["bert", "camembert", "roberta", "xlm-roberta", "distilbert", "mistral"]

/-- Embedding of `serde_json::from_str::<Config>` on a document: read the
`model_type` tag, construct the matching variant, fail on an unknown tag.
Parsing is a pure function; it either returns a whole `Config` or an
error, never a partial value. -/
def Config.parse (doc : ConfigDoc) : Except ConfigError Config :=
  match doc.model_type with
  | none => .error (.Malformed "model_type")
  | some tag =>
    let fc : FamilyConfig := ⟨doc.architectures, doc.use_flash_attn⟩
    if tag = "bert" then .ok (.bert fc)
    else if tag = "camembert" then .ok (.camembert fc)
    else if tag = "roberta" then .ok (.roberta fc)
    else if tag = "xlm-roberta" then .ok (.xlmRoberta fc)
    else if tag = "distilbert" then .ok (.distilbert fc)
    else if tag = "mistral" then .ok (.mistral fc)
    else .error (.UnsupportedArchitecture tag)

/-- The concrete model implementations the dispatcher can construct, one
per architecture-family and task-head combination appearing in the match
arms of `load_model`. -/
inductive ModelVariant
  | BertModel
  | BertForSequenceClassification
  | CamembertModel
  | RobertaModel
  | RobertaForSequenceClassification
  | XLMRobertaModel
  | XLMRobertaForSequenceClassification
  | DistilBertModel
  | MistralModel
  deriving DecidableEq, Repr

/-- The family arms of the `match (config, &device)` in `load_model`,
minus the device arm: each family inspects `config.architectures.first()`
and selects the task-head variant on a known head name, otherwise the base
variant; families without a head arm always select their base variant. -/
def selectVariant : Config → ModelVariant
  | .bert c =>
    match c.architectures.head? with
    | some arch =>
      if arch = "BertForSequenceClassification" then
        .BertForSequenceClassification
      else .BertModel
    | none => .BertModel
  | .camembert _ => .CamembertModel
  | .roberta c =>
    match c.architectures.head? with
    | some arch =>
      if arch = "RobertaForSequenceClassification" then
        .RobertaForSequenceClassification
      else .RobertaModel
    | none => .RobertaModel
  | .xlmRoberta c =>
    match c.architectures.head? with
    | some arch =>
      if arch = "XLMRobertaForSequenceClassification" then
        .XLMRobertaForSequenceClassification
      else .XLMRobertaModel
    | none => .XLMRobertaModel
  | .distilbert _ => .DistilBertModel
  | .mistral _ => .MistralModel

/-- The write `config.use_flash_attn = Some(use_flash_attn)` every family
arm performs before calling the family constructor. -/
def setFlashAttn (c : FamilyConfig) (b : Bool) : FamilyConfig :=
  { c with use_flash_attn := some b }

/-- Embedding of Rust `str::parse::<bool>`: exactly the strings `true` and
`false` parse, everything else is an error (`none`). -/
def parseRustBool (s : String) : Option Bool :=
  if s = "true" then some true
  else if s = "false" then some false
  else none

/-- The accelerated-attention flag computed in `load_model`:
`cfg!(feature = "cuda") && cfg!(feature = "flash-attn") && dtype == DType::F16
&& std::env::var("USE_FLASH_ATTENTION").ok().map_or(true, |v| v.parse().unwrap_or(true))`.
The compile-time feature tests are parameters; `envVar` is the value of the
`USE_FLASH_ATTENTION` environment variable (`none` when unset). -/
def useFlashAttn (cudaFeature flashAttnFeature : Bool) (dtype : DType)
    (envVar : Option String) : Bool :=
  cudaFeature && flashAttnFeature && decide (dtype = .F16) &&
    (match envVar with
     | none => true
     | some v => ((parseRustBool v).getD true))

/-- Opaque tensor values.  A tensor is either one the host caller created
(identified by an id) or the output of a forward pass, recorded with the
variant that produced it and the inputs it received, so that theorems can
observe exactly which arguments reached `forward`. -/
inductive TensorVal
  | fromHost (id : Nat)
  | output (variant : ModelVariant) (input_ids attention_mask : TensorVal)
      (token_type_ids : Option TensorVal)

/-- The `Model` trait object: the two capabilities `get_input_names` and
`forward`.  `forward` takes the primary input, the attention mask and an
optional third tensor, and returns a fresh tensor or a candle error
message. -/
structure ModelImpl where
  inputNames : List String
  forward : TensorVal → TensorVal → Option TensorVal → Except String TensorVal

/-- The default body of `Model::forward` in the trait declaration:
`candle::bail!("`forward` is not implemented for this model")`. -/
def defaultForward : TensorVal → TensorVal → Option TensorVal →
    Except String TensorVal :=
  fun _ _ _ => .error "`forward` is not implemented for this model"

/-- A value owned by a registry slot: either a boxed model or a tensor. -/
inductive StoredValue
  | model (m : ModelImpl)
  | tensor (t : TensorVal)

/-- Registry lookup errors.  `Modelled from the spec`: the handle helpers
`to_handle` and `cast_handle` live at the crate root, outside this
snapshot; the spec fixes that a typed lookup on a slot holding the other
capability type fails with a type-mismatch error, and a lookup of a handle
with no live slot is a distinct liveness error. -/
inductive HandleError
  | TypeMismatch
  | NotFound
  deriving DecidableEq, Repr

/-- Modelled from the spec: the process-wide opaque handle registry behind
`to_handle`, `cast_handle` and `drop_handle` (crate root, not in this
snapshot).  Slots map a non-zero integer handle to an owned `StoredValue`;
`next` is the next fresh handle, so handles are process-unique. -/
structure Registry where
  slots : List (Nat × StoredValue)
  next : Nat

/-- Modelled from the spec: `create` takes ownership of a value, allocates
a fresh slot and returns its handle (embedding of `to_handle`). -/
def Registry.create (r : Registry) (v : StoredValue) : Nat × Registry :=
  (r.next, ⟨(r.next, v) :: r.slots, r.next + 1⟩)

/-- Modelled from the spec: `cast_handle::<Box<dyn Model>>` resolves a
handle to the stored model, failing with `TypeMismatch` when the slot
holds a tensor. -/
def Registry.borrowModel (r : Registry) (h : Nat) :
    Except HandleError ModelImpl :=
  match r.slots.lookup h with
  | some (.model m) => .ok m
  | some (.tensor _) => .error .TypeMismatch
  | none => .error .NotFound

/-- Modelled from the spec: `cast_handle::<Tensor>` resolves a handle to
the stored tensor, failing with `TypeMismatch` when the slot holds a
model. -/
def Registry.borrowTensor (r : Registry) (h : Nat) :
    Except HandleError TensorVal :=
  match r.slots.lookup h with
  | some (.tensor t) => .ok t
  | some (.model _) => .error .TypeMismatch
  | none => .error .NotFound

/-- A directory entry as `std::fs::read_dir` yields it: `ok` is whether
the `Result<DirEntry>` item was `Ok` (the filter in `load_model` drops
`Err` items via `entry.ok()?`), `extension` is the file extension when
present. -/
structure DirEntry where
  ok : Bool
  path : String
  extension : Option String
  deriving DecidableEq, Repr

/-- The file-system facts `load_model` consults for one model directory:
the parsed content of `config.json` (`none` models a failing
`read_to_string`, e.g. a non-existent directory) and the directory listing
(`none` models a failing `read_dir`). -/
structure FileSystem where
  configJson : Option ConfigDoc
  dirEntries : Option (List DirEntry)

/-- The safetensors enumeration of `load_model`: keep each entry that is
`Ok`, has an extension, and whose extension is `safetensors`; entries that
errored or lack the extension are silently skipped by the `filter_map`. -/
def safetensorsPaths (entries : List DirEntry) : List String :=
  entries.filterMap fun e =>
    if e.ok then
      match e.extension with
      | some ext => if ext = "safetensors" then some e.path else none
      | none => none
    else none

/-- The world a load call runs in: the model directory contents, the
`USE_FLASH_ATTENTION` environment variable, and the outcomes of the two
external collaborators: `vb` is `VarBuilder::from_mmaped_safetensors`
(candle, external), `familyLoad` is the per-family constructor
(`BertModel::load` and friends, in modules outside this snapshot) applied
to the selected variant and the config it receives. -/
structure World where
  fs : FileSystem
  env : Option String
  vb : List String → DType → Device → Except String Unit
  familyLoad : ModelVariant → FamilyConfig → Except String Unit

/-- Errors `load_model` can return (candle `Result` errors, tagged here by
the site that raised them). -/
inductive LoadError
  | ioError (site : String)
  | configError (e : ConfigError)
  | vbError (msg : String)
  | construction (msg : String)

/-- The message a `LoadError` surfaces at the boundary. -/
def LoadError.message : LoadError → String
  | .ioError site => "io error: " ++ site
  | .configError (.UnsupportedArchitecture tag) =>
      "unknown variant `" ++ tag ++ "`"
  | .configError (.Malformed field) => "malformed config: " ++ field
  | .vbError msg => msg
  | .construction msg => msg

/-- The successfully constructed boxed model, recorded as the selected
variant together with the family config (flag already written) that the
family constructor received. -/
structure LoadedModel where
  variant : ModelVariant
  config : FamilyConfig

/-- Outcome of `load_model`: an `Ok` model, an `Err` propagated to the
boundary, or a panic (the `panic!` arm for a Cuda device in a build
without the cuda feature). -/
inductive LoadOutcome
  | ok (m : LoadedModel)
  | err (e : LoadError)
  | panic (msg : String)

/-- Embedding of `load_model`, step for step: read and parse
`config.json`, enumerate the safetensors files, map them with the
VarBuilder, compute the accelerated-attention flag, then run the
`match (config, &device)`: in a build without the cuda feature a Cuda
device panics; otherwise the family arm writes the flag into the config,
selects the variant from `architectures.first()` and calls the family
constructor. -/
def load_model (cudaFeature flashAttnFeature : Bool) (w : World)
    (dtype : DType) (device : Device) : LoadOutcome :=
  match w.fs.configJson with
  | none => .err (.ioError "config.json")
  | some doc =>
    match Config.parse doc with
    | .error e => .err (.configError e)
    | .ok config =>
      match w.fs.dirEntries with
      | none => .err (.ioError "read_dir")
      | some entries =>
        match w.vb (safetensorsPaths entries) dtype device with
        | .error msg => .err (.vbError msg)
        | .ok _ =>
          if !cudaFeature && device.isCuda then
            .panic "`cuda` feature is not enabled"
          else
            match w.familyLoad (selectVariant config)
                (setFlashAttn config.familyConfig
                  (useFlashAttn cudaFeature flashAttnFeature dtype w.env)) with
            | .error msg => .err (.construction msg)
            | .ok _ =>
              .ok ⟨selectVariant config,
                setFlashAttn config.familyConfig
                  (useFlashAttn cudaFeature flashAttnFeature dtype w.env)⟩

/-- Modelled from the spec: `as_data_type` (crate `ndarray` module, not in
this snapshot) maps the boundary dtype int code to a `DType`, failing on
an unrecognized code. -/
def as_data_type (code : Int) : Except String DType :=
  if code = 0 then .ok .F32
  else if code = 1 then .ok .F64
  else if code = 2 then .ok .F16
  else if code = 3 then .ok .BF16
  else if code = 4 then .ok .U8
  else if code = 5 then .ok .U32
  else if code = 6 then .ok .I64
  else .error "unsupported data type"

/-- Modelled from the spec: `as_device` (crate `ndarray` module, not in
this snapshot) maps the boundary device-type string and ordinal to a
`Device`, failing on an unrecognized device type. -/
def as_device (deviceType : String) (deviceId : Nat) : Except String Device :=
  if deviceType = "cpu" then .ok .Cpu
  else if deviceType = "gpu" then .ok (.Cuda deviceId)
  else .error "unsupported device"

/-- Modelled from the spec: the boxed model object a successful load
stores in the registry; `get_input_names` lists the expected inputs in
position order and `forward` produces a fresh output tensor (the concrete
bodies live in the per-family modules outside this snapshot). -/
def LoadedModel.toImpl (lm : LoadedModel) : ModelImpl :=
  { inputNames := ["input_ids", "attention_mask"]
    forward := fun a b c => .ok (.output lm.variant a b c) }

/-- What a JNI boundary call does as seen from the Java side: return a
fresh handle, throw a Java exception and return the sentinel 0, or panic
(never returning normally). -/
inductive BoundaryResult
  | ret (handle : Nat)
  | threw (msg : String)
  | panicked (msg : String)

/-- Whether the boundary call returned a fresh handle. -/
def BoundaryResult.isRet : BoundaryResult → Bool
  | .ret _ => true
  | _ => false

/-- The jlong value the boundary call returns to Java: the handle on
success, 0 after a thrown exception, and no value at all on a panic. -/
def BoundaryResult.jlongReturn : BoundaryResult → Option Nat
  | .ret h => some h
  | .threw _ => some 0
  | .panicked _ => none

/-- Embedding of `Java_ai_djl_engine_rust_RustLibrary_loadModel`: convert
the dtype code and device, run `load_model`; on `Ok` store the boxed model
via `to_handle` and return the fresh handle, on `Err` throw and return 0,
on a panic return nothing.  Only the `Ok` path touches the registry. -/
def loadModelBoundary (cudaFeature flashAttnFeature : Bool) (w : World)
    (r : Registry) (dtypeCode : Int) (deviceType : String) (deviceId : Nat) :
    BoundaryResult × Registry :=
  match as_data_type dtypeCode with
  | .error msg => (.threw msg, r)
  | .ok dtype =>
    match as_device deviceType deviceId with
    | .error msg => (.threw msg, r)
    | .ok device =>
      match load_model cudaFeature flashAttnFeature w dtype device with
      | .ok lm =>
        (.ret (r.create (.model lm.toImpl)).1, (r.create (.model lm.toImpl)).2)
      | .err e => (.threw e.message, r)
      | .panic msg => (.panicked msg, r)

/-- The borrow loop of `runInference`: resolve every input handle as a
tensor, in order, before any positional access happens. -/
def borrowAll (r : Registry) : List Nat → Except HandleError (List TensorVal)
  | [] => .ok []
  | h :: hs =>
    match r.borrowTensor h with
    | .error e => .error e
    | .ok t =>
      match borrowAll r hs with
      | .error e => .error e
      | .ok ts => .ok (t :: ts)

/-- The tail of `runInference` after `forward` returns: `Ok(output)` is
stored via `to_handle` and its fresh handle returned, `Err(err)` is thrown
and 0 returned with the registry untouched. -/
def finishInference (r : Registry) (res : Except String TensorVal) :
    BoundaryResult × Registry :=
  match res with
  | .ok out => (.ret (r.create (.tensor out)).1, (r.create (.tensor out)).2)
  | .error msg => (.threw msg, r)

/-- Embedding of `Java_ai_djl_engine_rust_RustLibrary_runInference`:
resolve the model handle, borrow every input handle into `input_vec`,
then call `forward` with `input_vec.get(0).unwrap()`,
`input_vec.get(1).unwrap()` and `input_vec.get(2).map(|&x| x)`.  The two
`unwrap` calls panic when fewer than 2 inputs were supplied; a failing
handle resolution is a panic inside `cast_handle` (whose body, outside
this snapshot, hands the value straight back to an infallible call
site). -/
def runInference (r : Registry) (modelHandle : Nat) (inputs : List Nat) :
    BoundaryResult × Registry :=
  match r.borrowModel modelHandle with
  | .error _ => (.panicked "cast_handle: invalid handle", r)
  | .ok m =>
    match borrowAll r inputs with
    | .error _ => (.panicked "cast_handle: invalid handle", r)
    | .ok ts =>
      match ts.get? 0 with
      | none => (.panicked "called `Option::unwrap()` on a `None` value", r)
      | some t0 =>
        match ts.get? 1 with
        | none => (.panicked "called `Option::unwrap()` on a `None` value", r)
        | some t1 => finishInference r (m.forward t0 t1 (ts.get? 2))

/-- A minimal bert configuration document with no `architectures` list. -/
def bertDoc : ConfigDoc := ⟨some "bert", [], none⟩

/-- A world whose model directory contains only `config.json`: the config
reads and parses, the directory listing holds one json file and no
safetensors file, and both external collaborators succeed. -/
def wOkNoWeights : World :=
  { fs := ⟨some bertDoc, some [⟨true, "config.json", some "json"⟩]⟩
    env := none
    vb := fun _ _ _ => .ok ()
    familyLoad := fun _ _ => .ok () }

/-- A world whose model directory does not exist: reading `config.json`
and the directory listing both fail. -/
def wMissingDir : World :=
  { fs := ⟨none, none⟩
    env := none
    vb := fun _ _ _ => .ok ()
    familyLoad := fun _ _ => .ok () }

/-- A model implementation that overrides `forward`, producing an output
tensor. -/
def mImpl0 : ModelImpl :=
  { inputNames := ["input_ids", "attention_mask"]
    forward := fun a b c => .ok (.output .BertModel a b c) }

/-- A model implementation that keeps the default `forward` of the trait. -/
def mImplDefault : ModelImpl :=
  { inputNames := ["input_ids", "attention_mask"]
    forward := defaultForward }

/-- A registry fixture: a model at handle 1, host tensors at handles 2,
3 and 4, and a model keeping the default `forward` at handle 5. -/
def reg0 : Registry :=
  ⟨[(1, .model mImpl0), (2, .tensor (.fromHost 10)), (3, .tensor (.fromHost 11)),
    (4, .tensor (.fromHost 12)), (5, .model mImplDefault)], 6⟩

theorem borrowAll_ok (r : Registry) : ∀ (inputs : List Nat),
    (∀ h ∈ inputs, ∃ t, r.borrowTensor h = .ok t) →
    ∃ ts, borrowAll r inputs = .ok ts ∧ ts.length = inputs.length := by
  intro inputs
  induction inputs with
  | nil => intro _; exact ⟨[], rfl, rfl⟩
  | cons h hs ih =>
    intro hin
    obtain ⟨t, ht⟩ := hin h (List.mem_cons_self h hs)
    obtain ⟨ts, hts, hlen⟩ := ih (fun x hx => hin x (List.mem_cons_of_mem _ hx))
    exact ⟨t :: ts, by simp [borrowAll, ht, hts], by simp [hlen]⟩

theorem load_model_ok_inv (cudaF flashF : Bool) (w : World) (dtype : DType)
    (device : Device) (lm : LoadedModel)
    (h : load_model cudaF flashF w dtype device = .ok lm) :
    ∃ doc cfg, w.fs.configJson = some doc ∧ Config.parse doc = .ok cfg ∧
      lm = ⟨selectVariant cfg,
        setFlashAttn cfg.familyConfig (useFlashAttn cudaF flashF dtype w.env)⟩ := by
  unfold load_model at h
  split at h
  · simp at h
  rename_i doc hc
  split at h
  · simp at h
  rename_i cfg hp
  split at h
  · simp at h
  rename_i es he
  split at h
  · simp at h
  rename_i u hv
  split at h
  · simp at h
  split at h
  · simp at h
  rename_i hd u2 hf
  cases h
  exact ⟨doc, cfg, hc, hp, rfl⟩

theorem getD_true_iff (o : Option Bool) : o.getD true = true ↔ o ≠ some false := by
  cases o with
  | none => simp
  | some b => cases b <;> simp

/-- Claim C1, counterexample: calling `runInference` on a valid model
handle with an empty input handle list does not fail with a reported
missing-input error; it panics (the `unwrap` on `input_vec.get(0)`), so no
jlong value is returned to the caller at all. -/
theorem c1_counterexample :
    (runInference reg0 1 []).1 =
      .panicked "called `Option::unwrap()` on a `None` value"
    ∧ (runInference reg0 1 []).1.jlongReturn = none :=
  ⟨rfl, rfl⟩

/-- Claim C1 as amended: for every `runInference` call on a valid model
handle whose input handle list resolves to fewer than 2 tensors, the call
panics on the `unwrap` of a missing positional element, after the borrow
loop already ran over every provided handle; the registry is unchanged, so
no new handle is allocated. -/
theorem c1_short_input_list_panics (r : Registry) (mh : Nat) (m : ModelImpl)
    (inputs : List Nat)
    (hm : r.borrowModel mh = .ok m)
    (hin : ∀ h ∈ inputs, ∃ t, r.borrowTensor h = .ok t)
    (hlen : inputs.length < 2) :
    runInference r mh inputs =
      (.panicked "called `Option::unwrap()` on a `None` value", r) := by
  obtain ⟨ts, hts, htlen⟩ := borrowAll_ok r inputs hin
  have hts2 : ts.length < 2 := by rw [htlen]; exact hlen
  cases ts with
  | nil => simp only [runInference, hm, hts]; rfl
  | cons t tail =>
    cases tail with
    | nil => simp only [runInference, hm, hts]; rfl
    | cons t2 rest => simp at hts2; omega

/-- Claim C1 witness: a concrete one-element input list panics with the
registry unchanged. -/
theorem c1_witness :
    runInference reg0 1 [2] =
      (.panicked "called `Option::unwrap()` on a `None` value", reg0) :=
  c1_short_input_list_panics reg0 1 mImpl0 [2] rfl
    (by intro h hh; simp at hh; subst hh; exact ⟨.fromHost 10, rfl⟩)
    (by decide)

/-- Claim C2, counterexample: in a build without the cuda feature, a load
that points at a non-existent directory while requesting a Cuda device
fails with the IO error from reading `config.json`, not with a device
error (the embedded `load_model` has no unsupported-device error value at
all; its device check is a panic placed after the weight mapping). -/
theorem c2_counterexample :
    load_model false false wMissingDir .F16 (.Cuda 0) =
      .err (.ioError "config.json") := rfl

/-- Claim C2 as amended: in a build without the cuda feature, a load
requesting a Cuda device panics with a feature message rather than
returning a reported error, and the panic is reached only after the
config has been read and parsed, the directory enumerated, and the weight
files handed to the mapper. -/
theorem c2_cuda_panic_after_io (w : World) (flashF : Bool) (dtype : DType)
    (i : Nat) (doc : ConfigDoc) (cfg : Config) (es : List DirEntry)
    (hdoc : w.fs.configJson = some doc)
    (hparse : Config.parse doc = .ok cfg)
    (hes : w.fs.dirEntries = some es)
    (hvb : w.vb (safetensorsPaths es) dtype (.Cuda i) = .ok ()) :
    load_model false flashF w dtype (.Cuda i) =
      .panic "`cuda` feature is not enabled" := by
  simp [load_model, hdoc, hparse, hes, hvb, Device.isCuda]

/-- Claim C2 witness: a concrete world whose config reads, parses and maps
successfully panics on the Cuda device request. -/
theorem c2_witness :
    load_model false false wOkNoWeights .F16 (.Cuda 0) =
      .panic "`cuda` feature is not enabled" :=
  c2_cuda_panic_after_io wOkNoWeights false .F16 0 bertDoc (.bert ⟨[], none⟩)
    [⟨true, "config.json", some "json"⟩] rfl rfl rfl rfl

/-- Claim C3: variant selection dispatches on the family tag and then on
the first entry of the architectures list; a family with a
sequence-classification head selects it exactly when the first entry is
its head name, otherwise (no match, or empty list) the base variant;
families without a head arm always select their base variant, so
selection is total for every recognized family. -/
theorem c3_two_level_dispatch (c : FamilyConfig) :
    (selectVariant (.bert c) =
      if c.architectures.head? = some "BertForSequenceClassification"
      then .BertForSequenceClassification else .BertModel)
    ∧ (selectVariant (.roberta c) =
      if c.architectures.head? = some "RobertaForSequenceClassification"
      then .RobertaForSequenceClassification else .RobertaModel)
    ∧ (selectVariant (.xlmRoberta c) =
      if c.architectures.head? = some "XLMRobertaForSequenceClassification"
      then .XLMRobertaForSequenceClassification else .XLMRobertaModel)
    ∧ selectVariant (.camembert c) = .CamembertModel
    ∧ selectVariant (.distilbert c) = .DistilBertModel
    ∧ selectVariant (.mistral c) = .MistralModel := by
  refine ⟨?_, ?_, ?_, rfl, rfl, rfl⟩ <;>
    cases h : c.architectures.head? <;> simp [selectVariant, h]

/-- Claim C4: the accelerated-attention flag is true exactly when the
build has both the cuda and flash-attn features, the requested dtype is
exactly F16, and the `USE_FLASH_ATTENTION` environment variable is not
set to a value that parses to false (unset or unparsable counts as
enabled); every successful load writes exactly this flag into the family
config handed to the constructor. -/
theorem c4_flash_attn_flag (cudaF flashF : Bool) (dtype : DType)
    (w : World) (device : Device) (lm : LoadedModel)
    (hload : load_model cudaF flashF w dtype device = .ok lm) :
    lm.config.use_flash_attn = some (useFlashAttn cudaF flashF dtype w.env)
    ∧ (useFlashAttn cudaF flashF dtype w.env = true ↔
        cudaF = true ∧ flashF = true ∧ dtype = .F16 ∧
          ∀ v, w.env = some v → parseRustBool v ≠ some false) := by
  constructor
  · obtain ⟨doc, cfg, hdoc, hparse, hlm⟩ :=
      load_model_ok_inv cudaF flashF w dtype device lm hload
    rw [hlm]
    rfl
  · unfold useFlashAttn
    cases henv : w.env with
    | none =>
      simp [Bool.and_eq_true, decide_eq_true_eq]
      tauto
    | some v =>
      simp [Bool.and_eq_true, decide_eq_true_eq, getD_true_iff]
      tauto

/-- Claim C4 witness: a concrete successful load on a cuda-less build with
F32 dtype records the flag `some false`, matching the characterization. -/
theorem c4_witness :
    (LoadedModel.mk .BertModel ⟨[], some false⟩).config.use_flash_attn =
      some (useFlashAttn false false .F32 wOkNoWeights.env)
    ∧ (useFlashAttn false false .F32 wOkNoWeights.env = true ↔
        false = true ∧ false = true ∧ DType.F32 = .F16 ∧
          ∀ v, wOkNoWeights.env = some v → parseRustBool v ≠ some false) :=
  c4_flash_attn_flag false false .F32 wOkNoWeights .Cpu
    ⟨.BertModel, ⟨[], some false⟩⟩ rfl

/-- Claim C5: a `loadModel` boundary call that does not return a fresh
handle leaves the registry exactly as it was (no handle allocated), and a
`runInference` boundary call that does not return a fresh handle leaves
the registry exactly as it was, so the model slot and every input tensor
slot stay intact for a retry. -/
theorem c5_failure_allocates_nothing (cudaF flashF : Bool) (w : World)
    (r : Registry) (dtypeCode : Int) (deviceType : String) (deviceId : Nat)
    (r2 : Registry) (mh : Nat) (inputs : List Nat) :
    ((loadModelBoundary cudaF flashF w r dtypeCode deviceType deviceId).1.isRet
        = false →
      (loadModelBoundary cudaF flashF w r dtypeCode deviceType deviceId).2 = r)
    ∧ ((runInference r2 mh inputs).1.isRet = false →
      (runInference r2 mh inputs).2 = r2) := by
  constructor
  · unfold loadModelBoundary
    rcases hdt : as_data_type dtypeCode with msg | dtype <;> simp only [hdt]
    · exact fun _ => trivial
    rcases hdv : as_device deviceType deviceId with msg | device <;>
      simp only [hdv]
    · exact fun _ => trivial
    rcases hlm : load_model cudaF flashF w dtype device with lm | e | msg <;>
      simp only [hlm]
    · exact fun hfalse => absurd hfalse (by simp [BoundaryResult.isRet])
    · exact fun _ => trivial
    · exact fun _ => trivial
  · unfold runInference
    rcases hbm : r2.borrowModel mh with e | m <;> simp only [hbm]
    · exact fun _ => trivial
    rcases hba : borrowAll r2 inputs with e | ts <;> simp only [hba]
    · exact fun _ => trivial
    rcases hg0 : ts.get? 0 with _ | t0 <;> simp only [hg0]
    · exact fun _ => trivial
    rcases hg1 : ts.get? 1 with _ | t1 <;> simp only [hg1]
    · exact fun _ => trivial
    unfold finishInference
    rcases hf : m.forward t0 t1 (ts.get? 2) with msg | out <;> simp only [hf]
    · exact fun _ => trivial
    · exact fun hfalse => absurd hfalse (by simp [BoundaryResult.isRet])

/-- Claim C5 witness: a failing load (missing directory) and a failing
inference (empty input list) both leave the concrete registry unchanged. -/
theorem c5_witness :
    (loadModelBoundary false false wMissingDir reg0 0 "cpu" 0).2 = reg0
    ∧ (runInference reg0 1 []).2 = reg0 :=
  ⟨(c5_failure_allocates_nothing false false wMissingDir reg0 0 "cpu" 0
      reg0 1 []).1 rfl,
   (c5_failure_allocates_nothing false false wMissingDir reg0 0 "cpu" 0
      reg0 1 []).2 rfl⟩

/-- Claim C6, counterexample: a model directory holding only
`config.json` (so no safetensors file at all) does not make `load_model`
fail with a not-found error before construction; with the external mapper
and constructor succeeding, the load runs to completion and returns a
model. -/
theorem c6_counterexample :
    safetensorsPaths [⟨true, "config.json", some "json"⟩] = []
    ∧ load_model false false wOkNoWeights .F32 .Cpu =
      .ok ⟨.BertModel, ⟨[], some false⟩⟩ :=
  ⟨rfl, rfl⟩

/-- Claim C6 as amended: `load_model` applies no presence check to the
discovered weight files: whatever list the safetensors filter yields
(possibly empty) is passed to the external mapper and, if that succeeds,
construction proceeds; moreover a directory entry whose read errored is
silently skipped by the filter rather than surfacing an unreadable
error. -/
theorem c6_no_weight_presence_check (cudaF flashF : Bool) (w : World)
    (dtype : DType) (doc : ConfigDoc) (cfg : Config) (es : List DirEntry)
    (e : DirEntry)
    (hdoc : w.fs.configJson = some doc)
    (hparse : Config.parse doc = .ok cfg)
    (hes : w.fs.dirEntries = some es)
    (hvb : w.vb (safetensorsPaths es) dtype .Cpu = .ok ())
    (hfl : w.familyLoad (selectVariant cfg)
      (setFlashAttn cfg.familyConfig
        (useFlashAttn cudaF flashF dtype w.env)) = .ok ())
    (he : e.ok = false) :
    load_model cudaF flashF w dtype .Cpu =
      .ok ⟨selectVariant cfg,
        setFlashAttn cfg.familyConfig (useFlashAttn cudaF flashF dtype w.env)⟩
    ∧ safetensorsPaths (e :: es) = safetensorsPaths es := by
  constructor
  · simp [load_model, hdoc, hparse, hes, hvb, Device.isCuda, hfl]
  · simp [safetensorsPaths, he]

/-- Claim C6 witness: the amended statement at a concrete directory with
one json entry, no safetensors entry, and one errored entry. -/
theorem c6_witness :
    load_model false false wOkNoWeights .F32 .Cpu =
      .ok ⟨selectVariant (.bert ⟨[], none⟩),
        setFlashAttn (Config.bert ⟨[], none⟩).familyConfig
          (useFlashAttn false false .F32 wOkNoWeights.env)⟩
    ∧ safetensorsPaths (⟨false, "model.safetensors", some "safetensors"⟩ ::
        [⟨true, "config.json", some "json"⟩]) =
      safetensorsPaths [⟨true, "config.json", some "json"⟩] :=
  c6_no_weight_presence_check false false wOkNoWeights .F32 bertDoc
    (.bert ⟨[], none⟩) [⟨true, "config.json", some "json"⟩]
    ⟨false, "model.safetensors", some "safetensors"⟩ rfl rfl rfl rfl rfl rfl

/-- Claim C7: parsing a configuration document whose `model_type`
discriminator is present but not one of the recognized family tags fails
with the unsupported-architecture error; the parse is a pure function
into `Except`, so it has no side effects and an error case produces no
config value at all. -/
theorem c7_unknown_model_type (doc : ConfigDoc) (tag : String)
    (htag : doc.model_type = some tag)
    (hunk : tag ∉ recognizedModelTypes) :
    Config.parse doc = .error (.UnsupportedArchitecture tag) := by
  simp only [recognizedModelTypes, List.mem_cons, List.mem_singleton,
    not_or] at hunk
  obtain ⟨h1, h2, h3, h4, h5, h6⟩ := hunk
  simp [Config.parse, htag, h1, h2, h3, h4, h5, h6]

/-- Claim C7 witness: the unrecognized tag gpt2 is rejected. -/
theorem c7_witness :
    Config.parse ⟨some "gpt2", [], none⟩ =
      .error (.UnsupportedArchitecture "gpt2") :=
  c7_unknown_model_type ⟨some "gpt2", [], none⟩ "gpt2" rfl (by decide)

/-- Claim C8: borrowing a handle at the other capability type than the
one it was created with fails with the type-mismatch error: a handle
created for a tensor refuses a model borrow, and a handle created for a
model refuses a tensor borrow. -/
theorem c8_borrow_type_mismatch (r : Registry) (t : TensorVal)
    (m : ModelImpl) :
    ((r.create (.tensor t)).2.borrowModel (r.create (.tensor t)).1 =
      .error .TypeMismatch)
    ∧ ((r.create (.model m)).2.borrowTensor (r.create (.model m)).1 =
      .error .TypeMismatch) := by
  constructor <;>
    simp [Registry.create, Registry.borrowModel, Registry.borrowTensor,
      List.lookup]

/-- Claim C9: with two resolved inputs, `forward` receives the tensor at
position 0 as the primary input, the tensor at position 1 as the
attention mask, and `none` as the optional third argument; with three
resolved inputs the tensor at position 2 arrives as `some`. -/
theorem c9_positional_arguments (r : Registry) (mh a b c : Nat)
    (m : ModelImpl) (ta tb tc : TensorVal)
    (hm : r.borrowModel mh = .ok m)
    (ha : r.borrowTensor a = .ok ta)
    (hb : r.borrowTensor b = .ok tb)
    (hc : r.borrowTensor c = .ok tc) :
    runInference r mh [a, b] = finishInference r (m.forward ta tb none)
    ∧ runInference r mh [a, b, c] =
      finishInference r (m.forward ta tb (some tc)) := by
  constructor <;> simp [runInference, borrowAll, hm, ha, hb, hc]

/-- Claim C9 witness: the positional contract at concrete handles. -/
theorem c9_witness :
    runInference reg0 1 [2, 3] =
      finishInference reg0 (mImpl0.forward (.fromHost 10) (.fromHost 11) none)
    ∧ runInference reg0 1 [2, 3, 4] =
      finishInference reg0
        (mImpl0.forward (.fromHost 10) (.fromHost 11) (some (.fromHost 12))) :=
  c9_positional_arguments reg0 1 2 3 4 mImpl0 (.fromHost 10) (.fromHost 11)
    (.fromHost 12) rfl rfl rfl rfl

/-- Claim C10: running inference on a model that keeps the default
`forward` of the trait throws the not-implemented message at the boundary
and returns the sentinel 0 instead of a fresh handle, with the registry
unchanged. -/
theorem c10_default_forward_throws (r : Registry) (mh a b : Nat)
    (m : ModelImpl) (ta tb : TensorVal)
    (hm : r.borrowModel mh = .ok m)
    (hdef : m.forward = defaultForward)
    (ha : r.borrowTensor a = .ok ta)
    (hb : r.borrowTensor b = .ok tb) :
    runInference r mh [a, b] =
      (.threw "`forward` is not implemented for this model", r)
    ∧ (runInference r mh [a, b]).1.jlongReturn = some 0 := by
  have h1 : runInference r mh [a, b] =
      (.threw "`forward` is not implemented for this model", r) := by
    simp [runInference, borrowAll, hm, ha, hb, hdef, defaultForward,
      finishInference]
  exact ⟨h1, by rw [h1]; rfl⟩

/-- Claim C10 witness: the model at handle 5 keeps the default `forward`;
inference on it throws and returns 0. -/
theorem c10_witness :
    runInference reg0 5 [2, 3] =
      (.threw "`forward` is not implemented for this model", reg0)
    ∧ (runInference reg0 5 [2, 3]).1.jlongReturn = some 0 :=
  c10_default_forward_throws reg0 5 2 3 mImplDefault (.fromHost 10)
    (.fromHost 11) rfl rfl rfl rfl

end Djl
